import Mathlib

/-!
Shallow embedding of the AIHawk Resume Builder backend (`app.py`).

The FastAPI handlers and the helpers they call are translated into pure
Lean functions.  External effects are made explicit parameters:

* the process environment is an `Env` record (the two variables
  `get_api_key` reads);
* the file system is a function `String → Option String` from paths to
  file contents;
* the completion service is an `LLMStub` record giving the HTML fragment
  each of the three LLM generators would return, and every outcome
  records the `List ModelCall` of completion-service invocations made
  while handling the request (the spec verifies "no model call" via a
  stub counting calls);
* the mutable module-level `global_config` object is threaded through as
  an explicit `GlobalConfig` value: each handler receives the config as
  it stood before the request and returns the config after it.

The `yaml` reader and the `Resume` schema class live outside the
repository snapshot; requests are abstracted by the outcome of loading
their `resume_yaml` text (`YamlLoad`), and the `Resume` constructor is
modelled from the spec where noted.
-/

/-- HTTP error raised via FastAPI `HTTPException`: status code and detail message. -/
structure HTTPError where
  status : Nat
  detail : String
deriving DecidableEq

/-- Python truthiness of an optional string: `None` and `""` are falsy. -/
def truthy : Option String → Bool
  | none => false
  | some s => !s.isEmpty

/-- Python `a or b` on optional strings: `a` when truthy, else `b`. -/
def pyOr (a b : Option String) : Option String :=
  if truthy a then a else b

/-- Detail message of the missing-API-key error in `get_api_key` (app.py). -/
def apiKeyErrorDetail : String :=
  "API key required. Provide it in the request or set OPENAI_API_KEY environment variable."

/-- Embeds `get_api_key` (app.py): `request_key or os.getenv("OPENAI_API_KEY") or os.getenv("LLM_API_KEY")`; a falsy result raises HTTP 400. -/
def get_api_key (request_key env_openai env_llm : Option String) : Except HTTPError String :=
  match pyOr (pyOr request_key env_openai) env_llm with
  | some s => if s.isEmpty then .error ⟨400, apiKeyErrorDetail⟩ else .ok s
  | none => .error ⟨400, apiKeyErrorDetail⟩

/-- One entry of the style registry `style_manager.get_styles()`: dict key `name`, value `(file_name, author_link)`, in registration (insertion) order. -/
structure StyleItem where
  name : String
  fileName : String
  authorLink : String
deriving DecidableEq

/-- Python `.lower()` on the underlying characters (ASCII case folding). -/
def lowerData (s : String) : List Char := s.data.map Char.toLower

/-- Python substring test `needle in hay` on character lists. -/
def isSubstring (needle : List Char) : List Char → Bool
  | [] => needle.isEmpty
  | c :: t => needle.isPrefixOf (c :: t) || isSubstring needle t

/-- The match test of `get_style_path` (app.py): `style_name.lower() in name.lower()`. -/
def styleMatches (style_name : String) (s : StyleItem) : Bool :=
  isSubstring (lowerData style_name) (lowerData s.name)

/-- The `for name, (file_name, _) in styles.items()` loop of `get_style_path` (app.py): the first matching entry in registration order, if any. -/
def styleLoop (style_name : String) : List StyleItem → Option StyleItem
  | [] => none
  | s :: rest => if styleMatches style_name s then some s else styleLoop style_name rest

/-- Embeds `get_style_path` (app.py): first case-insensitive partial match; otherwise the first registered style; otherwise HTTP 404. `dir` stands for `style_manager.styles_directory`. -/
def get_style_path (style_name : String) (styles : List StyleItem) (dir : String) : Except HTTPError String :=
  match styleLoop style_name styles with
  | some s => .ok (dir ++ "/" ++ s.fileName)
  | none =>
      match styles with
      | s :: _ => .ok (dir ++ "/" ++ s.fileName)
      | [] => .error ⟨404, "Style '" ++ style_name ++ "' not found"⟩

/-- Outcome of running the external `yaml` reader on a request's `resume_yaml` text.  Requests are abstracted by this outcome (the reader is a third-party library).  Empty input loads as null (`nullVal`). -/
inductive YamlLoad
  | err (msg : String)
  | nullVal
  | scalarVal
  | seqVal
  | mapping (hasPersonalInformation : Bool)
deriving DecidableEq

/-- Modelled from the spec: the `Resume` constructor (src/resume_schemas/resume.py is absent from src/).  Spec section 4.1: a syntax error or a non-mapping top-level structure fails with `InvalidInputError` carrying the underlying parser message; a missing `personal_information` is itself an `InvalidInputError`; no semantic validation of field values. -/
def resumeParse : YamlLoad → Except String Unit
  | .err m => .error m
  | .mapping true => .ok ()
  | .mapping false => .error "missing required field personal_information"
  | .nullVal => .error "top-level structure is not a mapping"
  | .scalarVal => .error "top-level structure is not a mapping"
  | .seqVal => .error "top-level structure is not a mapping"

/-- The module-level mutable `global_config` object: exactly the fields assigned by `init_global_config` (app.py). -/
structure GlobalConfig where
  STRINGS_MODULE_RESUME_PATH : String
  STRINGS_MODULE_RESUME_JOB_DESCRIPTION_PATH : String
  STRINGS_MODULE_COVER_LETTER_JOB_DESCRIPTION_PATH : String
  STRINGS_MODULE_NAME : String
  STYLES_DIRECTORY : String
  LOG_OUTPUT_FILE_PATH : String
  API_KEY : String
deriving DecidableEq

/-- The `lib_directory` path computed in `init_global_config` (app.py). -/
def lib_directory : String := "src/libs/resume_and_cover_builder"

/-- Embeds `init_global_config` (app.py): assigns every `global_config` field; only `API_KEY` depends on the argument, the rest are fixed constants. -/
def init_global_config (api_key : String) : GlobalConfig where
  STRINGS_MODULE_RESUME_PATH := lib_directory ++ "/resume_prompt/strings_feder-cr.py"
  STRINGS_MODULE_RESUME_JOB_DESCRIPTION_PATH := lib_directory ++ "/resume_job_description_prompt/strings_feder-cr.py"
  STRINGS_MODULE_COVER_LETTER_JOB_DESCRIPTION_PATH := lib_directory ++ "/cover_letter_prompt/strings_feder-cr.py"
  STRINGS_MODULE_NAME := "strings_feder_cr"
  STYLES_DIRECTORY := lib_directory ++ "/resume_style"
  LOG_OUTPUT_FILE_PATH := "/tmp"
  API_KEY := api_key

/-- Which LLM generator `generate_html_from_resume` invoked: `LLMResumer` (base), `LLMResumeJobDescription` (tailored) or `LLMCoverLetterJobDescription` (cover). -/
inductive ModelCall
  | base
  | tailored
  | cover
deriving DecidableEq

/-- Stubbed completion service: the HTML fragment each of the three LLM generators returns. -/
structure LLMStub where
  baseHtml : String
  tailoredHtml : String
  coverHtml : String
deriving DecidableEq

/-- Modelled from the spec: `global_config.html_template` (the config module is absent from src/).  Spec section 4.5: a fixed HTML skeleton — doctype, head with a style slot, the body slot — with two named `string.Template` placeholders.  The doctype is written in lower case (valid HTML5), which keeps the skeleton free of upper-case letters. -/
def html_template : String :=
  "<!doctype html>\n<html>\n<head>\n<style>\n$style_css\n</style>\n</head>\n$body\n</html>"

/-- Identifier characters of `string.Template` placeholders. -/
def identChar (c : Char) : Bool := c.isAlphanum || c = '_'

/-- Single scan of `string.Template.substitute` with mapping keys `body` and `style_css`: placeholders of the template are replaced, and substituted values are emitted verbatim, never rescanned.  Fuel-indexed structural recursion; fuel at least the template length suffices. -/
def substAux (body css : List Char) : Nat → List Char → List Char
  | 0, _ => []
  | _ + 1, [] => []
  | fuel + 1, '$' :: rest =>
      let id := rest.takeWhile identChar
      let rest' := rest.dropWhile identChar
      if id = "body".data then body ++ substAux body css fuel rest'
      else if id = "style_css".data then css ++ substAux body css fuel rest'
      else '$' :: substAux body css fuel rest'
  | fuel + 1, c :: rest => c :: substAux body css fuel rest

/-- Embeds `Template(global_config.html_template).substitute(body=body_html, style_css=style_css)` (app.py). -/
def substituteTemplate (body_html style_css : String) : String :=
  ⟨substAux body_html.data style_css.data html_template.data.length html_template.data⟩

/-- Result of `generate_html_from_resume`: the global config after the call, the completion-service calls made, and the HTTP result. -/
structure GenOutcome where
  config : GlobalConfig
  calls : List ModelCall
  result : Except HTTPError String

/-- Embeds `generate_html_from_resume` (app.py): re-initializes the global config with the request's API key, parses the resume (any failure becomes HTTP 400 "Invalid resume YAML: ..."), reads the style CSS from the file system (missing file becomes HTTP 404), dispatches on `is_cover_letter` and the truthiness of `job_description` to exactly one LLM generator, and applies the page template. -/
def generate_html_from_resume (stub : LLMStub) (fs : String → Option String)
    (resume_yaml : YamlLoad) (api_key : String) (style_path : String)
    (job_description : Option String) (is_cover_letter : Bool) : GenOutcome :=
  let cfg := init_global_config api_key
  match resumeParse resume_yaml with
  | .error e => ⟨cfg, [], .error ⟨400, "Invalid resume YAML: " ++ e⟩⟩
  | .ok _ =>
      match fs style_path with
      | none => ⟨cfg, [], .error ⟨404, "Style file not found: " ++ style_path⟩⟩
      | some style_css =>
          if is_cover_letter && truthy job_description then
            ⟨cfg, [ModelCall.cover], .ok (substituteTemplate stub.coverHtml style_css)⟩
          else if truthy job_description then
            ⟨cfg, [ModelCall.tailored], .ok (substituteTemplate stub.tailoredHtml style_css)⟩
          else
            ⟨cfg, [ModelCall.base], .ok (substituteTemplate stub.baseHtml style_css)⟩

/-- Raw JSON body of a generation request; `none` marks an absent (or null) field. -/
structure RawBody where
  resume_yaml : Option YamlLoad
  job_description : Option String
  style : Option String
  api_key : Option String
deriving DecidableEq

/-- FastAPI/pydantic validation of `GenerateResumeRequest` (app.py): `resume_yaml` required, `style` defaults to "Classic", `api_key` optional.  A body missing a required field is rejected with HTTP 422 before the handler runs. -/
def parseGenerateResumeRequest (b : RawBody) :
    Except HTTPError (YamlLoad × String × Option String) :=
  match b.resume_yaml with
  | some ry => .ok (ry, b.style.getD "Classic", b.api_key)
  | none => .error ⟨422, "request body validation failed"⟩

/-- FastAPI/pydantic validation of `GenerateTailoredResumeRequest` (app.py): `resume_yaml` and `job_description` required, `style` defaults to "Classic", `api_key` optional; a missing required field is rejected with HTTP 422 before the handler runs. -/
def parseGenerateTailoredResumeRequest (b : RawBody) :
    Except HTTPError (YamlLoad × String × String × Option String) :=
  match b.resume_yaml, b.job_description with
  | some ry, some jd => .ok (ry, jd, b.style.getD "Classic", b.api_key)
  | _, _ => .error ⟨422, "request body validation failed"⟩

/-- FastAPI/pydantic validation of `GenerateCoverLetterRequest` (app.py): same fields and requirements as the tailored-resume request. -/
def parseGenerateCoverLetterRequest (b : RawBody) :
    Except HTTPError (YamlLoad × String × String × Option String) :=
  parseGenerateTailoredResumeRequest b

/-- The process environment variables read by `get_api_key`. -/
structure Env where
  OPENAI_API_KEY : Option String
  LLM_API_KEY : Option String
deriving DecidableEq

/-- Body of a successful generation response; the `success` field is always `true` and is omitted. -/
structure ApiSuccess where
  html : String
  message : String
deriving DecidableEq

/-- Result of one endpoint invocation: the global config after the request, the completion-service calls made, and the HTTP response. -/
structure EndpointOutcome where
  config : GlobalConfig
  calls : List ModelCall
  response : Except HTTPError ApiSuccess

/-- Embeds the POST /api/generate/resume handler `generate_resume` (app.py).  `cfg` is the global config before the request; `styles` and `dir` form the style registry; `fs` is the file system; `stub` the completion service. -/
def generate_resume (cfg : GlobalConfig) (env : Env) (styles : List StyleItem) (dir : String)
    (fs : String → Option String) (stub : LLMStub) (b : RawBody) : EndpointOutcome :=
  match parseGenerateResumeRequest b with
  | .error e => ⟨cfg, [], .error e⟩
  | .ok (ry, style, request_key) =>
      match get_api_key request_key env.OPENAI_API_KEY env.LLM_API_KEY with
      | .error e => ⟨cfg, [], .error e⟩
      | .ok api_key =>
          match get_style_path style styles dir with
          | .error e => ⟨cfg, [], .error e⟩
          | .ok style_path =>
              let out := generate_html_from_resume stub fs ry api_key style_path none false
              ⟨out.config, out.calls, out.result.map fun h => ⟨h, "Resume generated successfully"⟩⟩

/-- Embeds the POST /api/generate/resume-tailored handler `generate_tailored_resume` (app.py). -/
def generate_tailored_resume (cfg : GlobalConfig) (env : Env) (styles : List StyleItem) (dir : String)
    (fs : String → Option String) (stub : LLMStub) (b : RawBody) : EndpointOutcome :=
  match parseGenerateTailoredResumeRequest b with
  | .error e => ⟨cfg, [], .error e⟩
  | .ok (ry, jd, style, request_key) =>
      match get_api_key request_key env.OPENAI_API_KEY env.LLM_API_KEY with
      | .error e => ⟨cfg, [], .error e⟩
      | .ok api_key =>
          match get_style_path style styles dir with
          | .error e => ⟨cfg, [], .error e⟩
          | .ok style_path =>
              let out := generate_html_from_resume stub fs ry api_key style_path (some jd) false
              ⟨out.config, out.calls, out.result.map fun h => ⟨h, "Tailored resume generated successfully"⟩⟩

/-- Embeds the POST /api/generate/cover-letter handler `generate_cover_letter` (app.py). -/
def generate_cover_letter (cfg : GlobalConfig) (env : Env) (styles : List StyleItem) (dir : String)
    (fs : String → Option String) (stub : LLMStub) (b : RawBody) : EndpointOutcome :=
  match parseGenerateCoverLetterRequest b with
  | .error e => ⟨cfg, [], .error e⟩
  | .ok (ry, jd, style, request_key) =>
      match get_api_key request_key env.OPENAI_API_KEY env.LLM_API_KEY with
      | .error e => ⟨cfg, [], .error e⟩
      | .ok api_key =>
          match get_style_path style styles dir with
          | .error e => ⟨cfg, [], .error e⟩
          | .ok style_path =>
              let out := generate_html_from_resume stub fs ry api_key style_path (some jd) true
              ⟨out.config, out.calls, out.result.map fun h => ⟨h, "Cover letter generated successfully"⟩⟩

/-- Status of an `Except HTTPError` result: the error's status code, or `none` on success. -/
def errStatus {α : Type} : Except HTTPError α → Option Nat
  | .error e => some e.status
  | .ok _ => none

/-- Number of occurrences of `needle` as a contiguous substring of `hay`: one count per start position at which `needle` is a prefix of the remaining suffix. -/
def countOccur (needle : List Char) : List Char → Nat
  | [] => if needle.isEmpty then 1 else 0
  | c :: t => (if needle.isPrefixOf (c :: t) then 1 else 0) + countOccur needle t

/-! ### Concrete fixtures used by counterexamples and witnesses -/

/-- A concrete startup configuration (the server initialized with key "k0"). -/
def cfg0 : GlobalConfig := init_global_config "k0"

/-- A concrete environment with no API-key variables set. -/
def env0 : Env := ⟨none, none⟩

/-- A concrete one-entry style registry. -/
def styles0 : List StyleItem := [⟨"Classic", "classic.css", "author"⟩]

/-- A concrete two-entry style registry, "Modern" registered first. -/
def styles1 : List StyleItem :=
  [⟨"Modern", "modern.css", "a1"⟩, ⟨"Classic", "classic.css", "a2"⟩]

/-- The styles directory used by the fixtures. -/
def dir0 : String := "styles"

/-- A concrete file system holding exactly the CSS file of `styles0`. -/
def fs0 : String → Option String :=
  fun p => if p = "styles/classic.css" then some "bodycss" else none

/-- A concrete completion-service stub with distinct fragments per generator. -/
def stub0 : LLMStub := ⟨"BASEHTML", "TAILOREDHTML", "COVERHTML"⟩

/-! ### Helper lemmas about style resolution -/

/-- The scanning loop of `get_style_path` returns the first registry entry whose name matches, in registration order: it coincides with `List.find?`. -/
theorem styleLoop_eq_find (q : String) (ss : List StyleItem) :
    styleLoop q ss = ss.find? (fun s => styleMatches q s) := by
  induction ss with
  | nil => rfl
  | cons s rest ih =>
      by_cases h : styleMatches q s
      · simp [styleLoop, h, List.find?_cons_of_pos]
      · simp only [Bool.not_eq_true] at h
        simp [styleLoop, h, List.find?_cons_of_neg, ih]

/-- The scanning loop finds no entry exactly when no registered name matches. -/
theorem styleLoop_eq_none_iff (q : String) (ss : List StyleItem) :
    styleLoop q ss = none ↔ ∀ s ∈ ss, styleMatches q s = false := by
  rw [styleLoop_eq_find]
  simp [List.find?_eq_none]

/-- If the entry at index `i` matches and every earlier entry does not, the scanning loop returns the entry at index `i`. -/
theorem styleLoop_eq_of_first (q : String) (ss : List StyleItem) (i : Nat) (h : i < ss.length)
    (hm : styleMatches q (ss.get ⟨i, h⟩) = true)
    (hj : ∀ j (hlt : j < i), styleMatches q (ss.get ⟨j, Nat.lt_trans hlt h⟩) = false) :
    styleLoop q ss = some (ss.get ⟨i, h⟩) := by
  induction ss generalizing i with
  | nil => exact absurd h (Nat.not_lt_zero i)
  | cons s rest ih =>
      cases i with
      | zero => simp_all [styleLoop]
      | succ i =>
          have h0 : styleMatches q s = false := hj 0 (Nat.succ_pos i)
          have hr : i < rest.length := Nat.lt_of_succ_lt_succ h
          have := ih i hr hm (fun j hlt => hj (j + 1) (Nat.succ_lt_succ hlt))
          simp_all [styleLoop]

/-! ### Claim C7: page assembly -/

/-- C7 counterexample: the claim asserts that for EVERY fragment and stylesheet, the assembled document contains each exactly once — but when the fragment and the stylesheet are the same text "Z", that text occurs twice in the output, not once. -/
theorem c7_counterexample :
    countOccur "Z".data (substituteTemplate "Z" "Z").data = 2 ∧
    countOccur "Z".data (substituteTemplate "Z" "Z").data ≠ 1 := by
  constructor
  · decide
  · decide

/-- C7 amended: `assemble` substitutes exactly two named slots into the fixed skeleton — the output is literally skeleton head, then the stylesheet, then the skeleton middle, then the fragment, then the skeleton tail — and for the spec's round-trip example (fragment `"<body>X</body>"`, stylesheet `"Y"`) the output contains `X` and `Y` exactly once each.  The verbatim-and-exactly-once property cannot hold for every input (see the counterexample). -/
theorem c7_amended (f s : String) :
    substituteTemplate f s =
      "<!doctype html>\n<html>\n<head>\n<style>\n" ++ s ++
      "\n</style>\n</head>\n" ++ f ++ "\n</html>" ∧
    countOccur "X".data (substituteTemplate "<body>X</body>" "Y").data = 1 ∧
    countOccur "Y".data (substituteTemplate "<body>X</body>" "Y").data = 1 := by
  refine ⟨?_, by decide, by decide⟩
  have h : (substituteTemplate f s).data =
      "<!doctype html>\n<html>\n<head>\n<style>\n".data ++ s.data ++
      "\n</style>\n</head>\n".data ++ f.data ++ "\n</html>".data := by
    simp [substituteTemplate, substAux, html_template, identChar, List.takeWhile,
      List.dropWhile]
  apply String.ext
  simpa [String.data_append] using h

/-! ### Claim C3: empty style registry -/

/-- C3 counterexample: with an empty registry, `get_style_path` fails with HTTP 404 ("Style ... not found", a user-facing not-found error), not with a ConfigurationError mapped to HTTP 500 as the claim states. -/
theorem c3_counterexample :
    get_style_path "Modern" [] "styles" = .error ⟨404, "Style 'Modern' not found"⟩ ∧
    errStatus (get_style_path "Modern" [] "styles") = some 404 ∧
    errStatus (get_style_path "Modern" [] "styles") ≠ some 500 := by
  exact ⟨rfl, rfl, by decide⟩

/-- C3 amended: for every requested name, style resolution against an empty registry fails with HTTP 404 carrying "Style '<name>' not found", and the endpoint propagates that 404 unchanged (no model call, config untouched); the failure is presented as a not-found user error, not as a 500 misconfiguration error. -/
theorem c3_amended (name dir : String) :
    (get_style_path name [] dir = .error ⟨404, "Style '" ++ name ++ "' not found"⟩) ∧
    (∀ (cfg : GlobalConfig) (env : Env) (fs : String → Option String) (stub : LLMStub)
        (ry : YamlLoad) (style : Option String) (k : String), ¬(k = "") →
      generate_resume cfg env [] dir fs stub ⟨some ry, none, style, some k⟩ =
        ⟨cfg, [], .error ⟨404, "Style '" ++ style.getD "Classic" ++ "' not found"⟩⟩) := by
  constructor
  · rfl
  · intro cfg env fs stub ry style k hk
    have he : k.isEmpty = false := by
      rw [Bool.eq_false_iff]
      intro h
      exact hk ((String.isEmpty_iff k).mp h)
    have hkey : get_api_key (some k) env.OPENAI_API_KEY env.LLM_API_KEY = .ok k := by
      simp [get_api_key, pyOr, truthy, he]
    simp [generate_resume, parseGenerateResumeRequest, hkey, get_style_path, styleLoop]

/-- C3 amended, witness: the amended theorem applied at concrete inputs. -/
theorem c3_amended_witness :
    get_style_path "Modern" [] "styles" = .error ⟨404, "Style 'Modern' not found"⟩ ∧
    generate_resume cfg0 env0 [] "styles" fs0 stub0 ⟨some (.mapping true), none, none, some "sk"⟩ =
      ⟨cfg0, [], .error ⟨404, "Style 'Classic' not found"⟩⟩ := by
  have h := c3_amended "Modern" "styles"
  exact ⟨h.1, h.2 cfg0 env0 fs0 stub0 (.mapping true) none "sk" (by decide)⟩

/-! ### Claim C4: style resolution semantics -/

/-- C4: for a non-empty registry, resolution performs case-insensitive substring matching (the loop is `List.find?` over the test `style_name.lower() in name.lower()`); when nothing matches it falls back to the first registered entry instead of failing; `resolveStyle "mod"` over a registry ["Modern", "Classic"] returns the "Modern" entry and `resolveStyle "nonexistent"` returns the first registered entry. -/
theorem c4_style_matching (q dir : String) (s0 : StyleItem) (rest : List StyleItem) :
    (styleLoop q (s0 :: rest) = (s0 :: rest).find? (fun s => styleMatches q s)) ∧
    (∀ s, styleMatches q s = isSubstring (lowerData q) (lowerData s.name)) ∧
    (styleLoop q (s0 :: rest) = none →
      get_style_path q (s0 :: rest) dir = .ok (dir ++ "/" ++ s0.fileName)) ∧
    (get_style_path "mod" styles1 dir = .ok (dir ++ "/" ++ "modern.css")) ∧
    (get_style_path "nonexistent" styles1 dir = .ok (dir ++ "/" ++ "modern.css")) := by
  refine ⟨styleLoop_eq_find q (s0 :: rest), fun s => rfl, ?_, rfl, rfl⟩
  intro h
  simp [get_style_path, h]

/-- C4 witness: the theorem applied at a concrete no-match input, with the fallback hypothesis discharged by evaluation. -/
theorem c4_style_matching_witness :
    get_style_path "zzz" (⟨"Modern", "modern.css", "a1"⟩ :: [⟨"Classic", "classic.css", "a2"⟩]) "styles" =
      .ok ("styles" ++ "/" ++ "modern.css") := by
  exact (c4_style_matching "zzz" "styles" ⟨"Modern", "modern.css", "a1"⟩
    [⟨"Classic", "classic.css", "a2"⟩]).2.2.1 (by decide)

/-! ### Claim C10: earliest match wins -/

/-- C10: when the entry at index `i` matches the requested name by case-insensitive substring and every earlier entry does not (so in particular when several entries match, taking `i` as the earliest matching index), resolution returns the entry at index `i` — the matching entry earliest in registration order. -/
theorem c10_earliest_match (q dir : String) (ss : List StyleItem) (i : Nat) (h : i < ss.length)
    (hm : styleMatches q (ss.get ⟨i, h⟩) = true)
    (hj : ∀ j (hlt : j < i), styleMatches q (ss.get ⟨j, Nat.lt_trans hlt h⟩) = false) :
    get_style_path q ss dir = .ok (dir ++ "/" ++ (ss.get ⟨i, h⟩).fileName) := by
  have hl := styleLoop_eq_of_first q ss i h hm hj
  simp [get_style_path, hl]

/-- C10 witness: a registry in which both "Modern" and "Modest" match "mod"; the earliest match ("Modern", index 1, after the non-matching "Classic") is returned. -/
theorem c10_earliest_match_witness :
    get_style_path "mod"
      [⟨"Classic", "classic.css", "a0"⟩, ⟨"Modern", "modern.css", "a1"⟩,
        ⟨"Modest", "modest.css", "a2"⟩] "styles" =
      .ok ("styles" ++ "/" ++ "modern.css") := by
  exact c10_earliest_match "mod" "styles"
    [⟨"Classic", "classic.css", "a0"⟩, ⟨"Modern", "modern.css", "a1"⟩,
      ⟨"Modest", "modest.css", "a2"⟩] 1 (by decide) (by rfl)
    (by
      intro j hlt
      interval_cases j
      rfl)

/-! ### Claims C5 and C8: API key resolution -/

/-- A non-empty string has `isEmpty = false`. -/
theorem isEmpty_eq_false {k : String} (hk : ¬ k = "") : k.isEmpty = false := by
  rw [Bool.eq_false_iff]
  intro h
  exact hk ((String.isEmpty_iff k).mp h)

/-- A truthy (non-empty) request key resolves to itself. -/
theorem get_api_key_request (k : String) (e1 e2 : Option String) (hk : ¬ k = "") :
    get_api_key (some k) e1 e2 = .ok k := by
  have he := isEmpty_eq_false hk
  have h1 : truthy (some k) = true := by simp [truthy, he]
  simp [get_api_key, pyOr, h1, he]

/-- C5: the API key used is the request-supplied key when a non-empty one is present; otherwise the first truthy environment default (OPENAI_API_KEY, then LLM_API_KEY); when all three are falsy the request fails with HTTP 400 at the endpoint before any completion-service call (no model call recorded, config untouched). -/
theorem c5_api_key_resolution :
    (∀ (k : String) (e1 e2 : Option String), ¬ k = "" → get_api_key (some k) e1 e2 = .ok k) ∧
    (∀ (rk e2 : Option String) (k : String), truthy rk = false → ¬ k = "" →
      get_api_key rk (some k) e2 = .ok k) ∧
    (∀ (rk e1 : Option String) (k : String), truthy rk = false → truthy e1 = false → ¬ k = "" →
      get_api_key rk e1 (some k) = .ok k) ∧
    (∀ (rk e1 e2 : Option String), truthy rk = false → truthy e1 = false → truthy e2 = false →
      get_api_key rk e1 e2 = .error ⟨400, apiKeyErrorDetail⟩) ∧
    (∀ (cfg : GlobalConfig) (styles : List StyleItem) (dir : String)
        (fs : String → Option String) (stub : LLMStub) (ry : Option YamlLoad)
        (jd st : Option String) (rk e1 e2 : Option String),
      truthy rk = false → truthy e1 = false → truthy e2 = false →
      generate_resume cfg ⟨e1, e2⟩ styles dir fs stub ⟨some (ry.getD .nullVal), jd, st, rk⟩ =
        ⟨cfg, [], .error ⟨400, apiKeyErrorDetail⟩⟩) := by
  have hfail : ∀ (rk e1 e2 : Option String), truthy rk = false → truthy e1 = false →
      truthy e2 = false → get_api_key rk e1 e2 = .error ⟨400, apiKeyErrorDetail⟩ := by
    intro rk e1 e2 h0 h1 h2
    cases e2 with
    | none => simp [get_api_key, pyOr, h0, h1]
    | some s =>
        have hs : s.isEmpty = true := by
          simpa [truthy] using h2
        simp [get_api_key, pyOr, h0, h1, h2, hs]
  refine ⟨fun k e1 e2 hk => get_api_key_request k e1 e2 hk, ?_, ?_, hfail, ?_⟩
  · intro rk e2 k h0 hk
    have he := isEmpty_eq_false hk
    have h1 : truthy (some k) = true := by simp [truthy, he]
    simp [get_api_key, pyOr, h0, h1, he]
  · intro rk e1 k h0 h1 hk
    have he := isEmpty_eq_false hk
    simp [get_api_key, pyOr, h0, h1, he]
  · intro cfg styles dir fs stub ry jd st rk e1 e2 h0 h1 h2
    have hkey := hfail rk e1 e2 h0 h1 h2
    simp [generate_resume, parseGenerateResumeRequest, hkey]

/-- C5 witness: the resolution order, applied at concrete keys and environments, and the concrete 400-with-no-model-call outcome when every source is absent. -/
theorem c5_api_key_resolution_witness :
    get_api_key (some "req") (some "envk") none = .ok "req" ∧
    get_api_key none (some "envk") none = .ok "envk" ∧
    get_api_key (some "") none (some "fallback") = .ok "fallback" ∧
    get_api_key (some "") none none = .error ⟨400, apiKeyErrorDetail⟩ ∧
    generate_resume cfg0 env0 styles0 dir0 fs0 stub0 ⟨some (.mapping true), none, none, none⟩ =
      ⟨cfg0, [], .error ⟨400, apiKeyErrorDetail⟩⟩ := by
  obtain ⟨h1, h2, h3, h4, h5⟩ := c5_api_key_resolution
  exact ⟨h1 "req" (some "envk") none (by decide),
    h2 none none "envk" (by decide) (by decide),
    h3 (some "") none "fallback" (by decide) (by decide) (by decide),
    h4 (some "") none none (by decide) (by decide) (by decide),
    h5 cfg0 styles0 dir0 fs0 stub0 (some (.mapping true)) none none none none none
      (by decide) (by decide) (by decide)⟩

/-- C8: a request carrying `api_key = ""` resolves exactly as if the key were absent — the empty string is falsy, so resolution falls through to the environment defaults — and it yields the 400 error precisely when both environment defaults are falsy as well. -/
theorem c8_empty_request_key (e1 e2 : Option String) :
    get_api_key (some "") e1 e2 = get_api_key none e1 e2 ∧
    (errStatus (get_api_key (some "") e1 e2) = some 400 ↔
      truthy e1 = false ∧ truthy e2 = false) := by
  have hemp : "".isEmpty = true := rfl
  constructor
  · rfl
  · cases e1 with
    | none =>
        cases e2 with
        | none => simp [get_api_key, pyOr, truthy, errStatus, hemp]
        | some s =>
            by_cases hs : s.isEmpty <;>
              simp [get_api_key, pyOr, truthy, errStatus, hemp, hs]
    | some s1 =>
        cases e2 with
        | none =>
            by_cases hs1 : s1.isEmpty <;>
              simp [get_api_key, pyOr, truthy, errStatus, hemp, hs1]
        | some s2 =>
            by_cases hs1 : s1.isEmpty <;> by_cases hs2 : s2.isEmpty <;>
              simp [get_api_key, pyOr, truthy, errStatus, hemp, hs1, hs2]

/-! ### Claim C6: invalid resume YAML -/

/-- On a non-empty registry, style resolution always succeeds with some path. -/
theorem get_style_path_ok (q dir : String) (s0 : StyleItem) (rest : List StyleItem) :
    ∃ p, get_style_path q (s0 :: rest) dir = .ok p := by
  rcases h : styleLoop q (s0 :: rest) with _ | s
  · exact ⟨dir ++ "/" ++ s0.fileName, by simp [get_style_path, h]⟩
  · exact ⟨dir ++ "/" ++ s.fileName, by simp [get_style_path, h]⟩

/-- When the resume fails to parse with message `m`, the base-resume endpoint (resume present, valid non-empty key, non-empty registry) answers HTTP 400 "Invalid resume YAML: m" and records no model call. -/
theorem generate_resume_invalid_yaml (stub : LLMStub) (fs : String → Option String)
    (ld : YamlLoad) (m : String) (hld : resumeParse ld = .error m)
    (cfg : GlobalConfig) (env : Env) (s0 : StyleItem) (srest : List StyleItem) (dir : String)
    (style : Option String) (k : String) (hk : ¬ k = "") :
    generate_resume cfg env (s0 :: srest) dir fs stub ⟨some ld, none, style, some k⟩ =
      ⟨init_global_config k, [], .error ⟨400, "Invalid resume YAML: " ++ m⟩⟩ := by
  have hkey := get_api_key_request k env.OPENAI_API_KEY env.LLM_API_KEY hk
  obtain ⟨p, hp⟩ := get_style_path_ok (style.getD "Classic") dir s0 srest
  simp [generate_resume, parseGenerateResumeRequest, hkey, hp,
    generate_html_from_resume, hld, Except.map]

/-- C6: for every resume whose YAML load is a syntax error or a non-mapping value (in particular the null value an empty input loads to), parsing fails with an InvalidInputError carrying the underlying parser message (a syntax error's message is passed through unchanged), `generate_html_from_resume` answers HTTP 400 "Invalid resume YAML: ..." without invoking any LLM generator, and the base-resume endpoint propagates that 400 with no model call. -/
theorem c6_invalid_resume (stub : LLMStub) (fs : String → Option String) (ld : YamlLoad)
    (api_key style_path : String) (jd : Option String) (ic : Bool)
    (h : ∀ flag, ld ≠ YamlLoad.mapping flag) :
    (∀ m, resumeParse (.err m) = .error m) ∧
    (∃ m, resumeParse ld = .error m ∧
      generate_html_from_resume stub fs ld api_key style_path jd ic =
        ⟨init_global_config api_key, [], .error ⟨400, "Invalid resume YAML: " ++ m⟩⟩ ∧
      (∀ (cfg : GlobalConfig) (env : Env) (s0 : StyleItem) (srest : List StyleItem)
          (dir : String) (style : Option String) (k : String), ¬ k = "" →
        generate_resume cfg env (s0 :: srest) dir fs stub ⟨some ld, none, style, some k⟩ =
          ⟨init_global_config k, [], .error ⟨400, "Invalid resume YAML: " ++ m⟩⟩)) := by
  refine ⟨fun m => rfl, ?_⟩
  cases ld with
  | mapping flag => exact absurd rfl (h flag)
  | err m =>
      exact ⟨m, rfl, rfl, fun cfg env s0 srest dir style k hk =>
        generate_resume_invalid_yaml stub fs (.err m) m rfl cfg env s0 srest dir style k hk⟩
  | nullVal =>
      exact ⟨"top-level structure is not a mapping", rfl, rfl,
        fun cfg env s0 srest dir style k hk =>
          generate_resume_invalid_yaml stub fs .nullVal _ rfl cfg env s0 srest dir style k hk⟩
  | scalarVal =>
      exact ⟨"top-level structure is not a mapping", rfl, rfl,
        fun cfg env s0 srest dir style k hk =>
          generate_resume_invalid_yaml stub fs .scalarVal _ rfl cfg env s0 srest dir style k hk⟩
  | seqVal =>
      exact ⟨"top-level structure is not a mapping", rfl, rfl,
        fun cfg env s0 srest dir style k hk =>
          generate_resume_invalid_yaml stub fs .seqVal _ rfl cfg env s0 srest dir style k hk⟩

/-- C6 witness: an empty resume (null YAML load) at concrete inputs is answered with HTTP 400 and no model call, at the generator and at the endpoint. -/
theorem c6_invalid_resume_witness :
    generate_html_from_resume stub0 fs0 .nullVal "sk" "styles/classic.css" none false =
      ⟨init_global_config "sk", [],
        .error ⟨400, "Invalid resume YAML: top-level structure is not a mapping"⟩⟩ ∧
    generate_resume cfg0 env0 styles0 dir0 fs0 stub0 ⟨some .nullVal, none, none, some "sk"⟩ =
      ⟨init_global_config "sk", [],
        .error ⟨400, "Invalid resume YAML: top-level structure is not a mapping"⟩⟩ := by
  obtain ⟨-, m, hm, hgen, hend⟩ :=
    c6_invalid_resume stub0 fs0 .nullVal "sk" "styles/classic.css" none false (by decide)
  rw [show resumeParse .nullVal = .error "top-level structure is not a mapping" from rfl] at hm
  injection hm with hm2
  subst hm2
  exact ⟨hgen, hend cfg0 env0 ⟨"Classic", "classic.css", "author"⟩ [] dir0 none "sk" (by decide)⟩

/-! ### Claim C9: default style "Classic" -/

/-- C9: a generation request that omits `style` is handled exactly as if `style` were "Classic" (pydantic applies the default before resolution, on all three endpoints), and the default only falls back to the first registered entry when no registered name contains "classic" case-insensitively. -/
theorem c9_default_style (cfg : GlobalConfig) (env : Env) (styles : List StyleItem) (dir : String)
    (fs : String → Option String) (stub : LLMStub) (b : RawBody) (hb : b.style = none) :
    (generate_resume cfg env styles dir fs stub b =
      generate_resume cfg env styles dir fs stub { b with style := some "Classic" }) ∧
    (generate_tailored_resume cfg env styles dir fs stub b =
      generate_tailored_resume cfg env styles dir fs stub { b with style := some "Classic" }) ∧
    (generate_cover_letter cfg env styles dir fs stub b =
      generate_cover_letter cfg env styles dir fs stub { b with style := some "Classic" }) ∧
    (styleLoop "Classic" styles = none ↔ ∀ s ∈ styles, styleMatches "Classic" s = false) ∧
    (∀ s : StyleItem, styleMatches "Classic" s = isSubstring "classic".data (lowerData s.name)) := by
  cases b with
  | mk ry jd st ak =>
      simp only at hb
      subst hb
      refine ⟨?_, ?_, ?_, styleLoop_eq_none_iff "Classic" styles, fun s => rfl⟩
      · cases ry <;> rfl
      · cases ry <;> cases jd <;> rfl
      · cases ry <;> cases jd <;> rfl

/-- C9 witness: the theorem applied at a concrete omitted-style request. -/
theorem c9_default_style_witness :
    generate_resume cfg0 env0 styles0 dir0 fs0 stub0 ⟨some (.mapping true), none, none, some "sk"⟩ =
      generate_resume cfg0 env0 styles0 dir0 fs0 stub0
        ⟨some (.mapping true), none, some "Classic", some "sk"⟩ := by
  exact (c9_default_style cfg0 env0 styles0 dir0 fs0 stub0
    ⟨some (.mapping true), none, none, some "sk"⟩ rfl).1

/-! ### Claim C1: empty or absent job description -/

/-- Replace the success message of an endpoint outcome — the only field on which two handlers differ when they perform the same generation. -/
def withMessage (o : EndpointOutcome) (msg : String) : EndpointOutcome :=
  ⟨o.config, o.calls, o.response.map fun r => ⟨r.html, msg⟩⟩

/-- With an empty job description the generator takes the base-resume branch regardless of `is_cover_letter`: both `is_cover_letter and job_description` and the `elif job_description` guard see a falsy value. -/
theorem gen_html_empty_jd (stub : LLMStub) (fs : String → Option String) (ry : YamlLoad)
    (k p : String) :
    generate_html_from_resume stub fs ry k p (some "") true =
      generate_html_from_resume stub fs ry k p none false := by
  unfold generate_html_from_resume
  cases hr : resumeParse ry
  · rfl
  · cases hf : fs p
    · rfl
    · rfl

/-- C1 counterexample: a cover-letter (or tailored-resume) request whose `job_description` is the empty string is NOT answered with HTTP 400: it succeeds, and the completion service IS invoked — with the base-resume generator — contradicting the claim at this concrete input. -/
theorem c1_counterexample :
    (generate_cover_letter cfg0 env0 styles0 dir0 fs0 stub0
        ⟨some (.mapping true), some "", none, some "sk"⟩).calls = [ModelCall.base] ∧
    (generate_cover_letter cfg0 env0 styles0 dir0 fs0 stub0
        ⟨some (.mapping true), some "", none, some "sk"⟩).response =
      .ok ⟨substituteTemplate "BASEHTML" "bodycss", "Cover letter generated successfully"⟩ ∧
    (generate_tailored_resume cfg0 env0 styles0 dir0 fs0 stub0
        ⟨some (.mapping true), some "", none, some "sk"⟩).calls = [ModelCall.base] ∧
    errStatus (generate_tailored_resume cfg0 env0 styles0 dir0 fs0 stub0
        ⟨some (.mapping true), some "", none, some "sk"⟩).response = none := by
  exact ⟨rfl, rfl, rfl, rfl⟩

/-- C1 amended: a tailored-resume or cover-letter request with `job_description` absent is rejected by request-body validation with HTTP 422 (not 400) before any model call; a request with `job_description` present but empty is not rejected — it is handled exactly like a base-resume request (same config effect, same single base-generator call, same HTML; only the success message differs). -/
theorem c1_jd_handling :
    (∀ (cfg : GlobalConfig) (env : Env) (styles : List StyleItem) (dir : String)
        (fs : String → Option String) (stub : LLMStub) (ry : Option YamlLoad)
        (st ak : Option String),
      generate_tailored_resume cfg env styles dir fs stub ⟨ry, none, st, ak⟩ =
        ⟨cfg, [], .error ⟨422, "request body validation failed"⟩⟩ ∧
      generate_cover_letter cfg env styles dir fs stub ⟨ry, none, st, ak⟩ =
        ⟨cfg, [], .error ⟨422, "request body validation failed"⟩⟩) ∧
    (∀ (cfg : GlobalConfig) (env : Env) (styles : List StyleItem) (dir : String)
        (fs : String → Option String) (stub : LLMStub) (ry : YamlLoad) (st ak : Option String),
      generate_cover_letter cfg env styles dir fs stub ⟨some ry, some "", st, ak⟩ =
        withMessage (generate_resume cfg env styles dir fs stub ⟨some ry, none, st, ak⟩)
          "Cover letter generated successfully" ∧
      generate_tailored_resume cfg env styles dir fs stub ⟨some ry, some "", st, ak⟩ =
        withMessage (generate_resume cfg env styles dir fs stub ⟨some ry, none, st, ak⟩)
          "Tailored resume generated successfully") := by
  constructor
  · intro cfg env styles dir fs stub ry st ak
    constructor
    · cases ry <;> rfl
    · cases ry <;> rfl
  · intro cfg env styles dir fs stub ry st ak
    constructor
    · unfold generate_cover_letter generate_resume parseGenerateCoverLetterRequest
        parseGenerateTailoredResumeRequest parseGenerateResumeRequest
      cases hk : get_api_key ak env.OPENAI_API_KEY env.LLM_API_KEY with
      | error e => simp [withMessage, hk, Except.map]
      | ok k =>
          cases hsp : get_style_path (st.getD "Classic") styles dir with
          | error e => simp [withMessage, hk, hsp, Except.map]
          | ok p =>
              cases hr : resumeParse ry with
              | error m =>
                  simp [withMessage, hk, hsp, generate_html_from_resume, hr, Except.map]
              | ok u =>
                  cases hf : fs p with
                  | none =>
                      simp [withMessage, hk, hsp, generate_html_from_resume, hr, hf, Except.map]
                  | some css =>
                      have hemp : "".isEmpty = true := rfl
                      simp [withMessage, hk, hsp, generate_html_from_resume, hr, hf,
                        Except.map, truthy, hemp]
    · unfold generate_tailored_resume generate_resume
        parseGenerateTailoredResumeRequest parseGenerateResumeRequest
      cases hk : get_api_key ak env.OPENAI_API_KEY env.LLM_API_KEY with
      | error e => simp [withMessage, hk, Except.map]
      | ok k =>
          cases hsp : get_style_path (st.getD "Classic") styles dir with
          | error e => simp [withMessage, hk, hsp, Except.map]
          | ok p =>
              cases hr : resumeParse ry with
              | error m =>
                  simp [withMessage, hk, hsp, generate_html_from_resume, hr, Except.map]
              | ok u =>
                  cases hf : fs p with
                  | none =>
                      simp [withMessage, hk, hsp, generate_html_from_resume, hr, hf, Except.map]
                  | some css =>
                      have hemp : "".isEmpty = true := rfl
                      simp [withMessage, hk, hsp, generate_html_from_resume, hr, hf,
                        Except.map, truthy, hemp]

/-! ### Claim C2: shared mutable global configuration -/

/-- `generate_html_from_resume` always leaves the global config equal to `init_global_config` of the key it was given — it re-initializes the shared config on every call. -/
theorem gen_html_config (stub : LLMStub) (fs : String → Option String) (ry : YamlLoad)
    (k p : String) (jd : Option String) (ic : Bool) :
    (generate_html_from_resume stub fs ry k p jd ic).config = init_global_config k := by
  unfold generate_html_from_resume
  cases hr : resumeParse ry
  · rfl
  · cases hf : fs p
    · rfl
    · cases h2 : truthy jd <;> cases ic <;> simp [h2]

/-- C2 counterexample: handling a generation request mutates the shared global configuration — starting from the startup state `init_global_config "k1"`, a request carrying api_key "k2" leaves `global_config` changed, with `API_KEY = "k2"`. -/
theorem c2_counterexample :
    (generate_resume (init_global_config "k1") env0 styles0 dir0 fs0 stub0
        ⟨some (.mapping true), none, none, some "k2"⟩).config ≠ init_global_config "k1" ∧
    (generate_resume (init_global_config "k1") env0 styles0 dir0 fs0 stub0
        ⟨some (.mapping true), none, none, some "k2"⟩).config.API_KEY = "k2" ∧
    (init_global_config "k1").API_KEY = "k1" := by
  exact ⟨by decide, rfl, rfl⟩

/-- C2 amended: handling a generation request either stops before generation (request validation, API-key or style failure: config unchanged, no model call) or re-runs `init_global_config` with the resolved API key — resetting every path/name field to the same startup constants but setting `API_KEY` to the request's resolved key, so the shared config IS mutated whenever the resolved key differs from the previous one. -/
theorem c2_config_frame (cfg : GlobalConfig) (env : Env) (styles : List StyleItem) (dir : String)
    (fs : String → Option String) (stub : LLMStub) (b : RawBody) :
    (((generate_resume cfg env styles dir fs stub b).config = cfg ∧
      (generate_resume cfg env styles dir fs stub b).calls = []) ∨
     (∃ k, get_api_key b.api_key env.OPENAI_API_KEY env.LLM_API_KEY = .ok k ∧
       (generate_resume cfg env styles dir fs stub b).config = init_global_config k)) ∧
    (((generate_tailored_resume cfg env styles dir fs stub b).config = cfg ∧
      (generate_tailored_resume cfg env styles dir fs stub b).calls = []) ∨
     (∃ k, get_api_key b.api_key env.OPENAI_API_KEY env.LLM_API_KEY = .ok k ∧
       (generate_tailored_resume cfg env styles dir fs stub b).config = init_global_config k)) ∧
    (((generate_cover_letter cfg env styles dir fs stub b).config = cfg ∧
      (generate_cover_letter cfg env styles dir fs stub b).calls = []) ∨
     (∃ k, get_api_key b.api_key env.OPENAI_API_KEY env.LLM_API_KEY = .ok k ∧
       (generate_cover_letter cfg env styles dir fs stub b).config = init_global_config k)) := by
  obtain ⟨ry, jd, st, ak⟩ := b
  refine ⟨?_, ?_, ?_⟩
  · cases ry with
    | none => exact Or.inl ⟨rfl, rfl⟩
    | some ry =>
        cases hk : get_api_key ak env.OPENAI_API_KEY env.LLM_API_KEY with
        | error e => exact Or.inl (by simp [generate_resume, parseGenerateResumeRequest, hk])
        | ok k =>
            cases hsp : get_style_path (st.getD "Classic") styles dir with
            | error e =>
                exact Or.inl (by simp [generate_resume, parseGenerateResumeRequest, hk, hsp])
            | ok p =>
                refine Or.inr ⟨k, rfl, ?_⟩
                simp [generate_resume, parseGenerateResumeRequest, hk, hsp, gen_html_config]
  · cases ry with
    | none => exact Or.inl ⟨rfl, rfl⟩
    | some ry =>
        cases jd with
        | none => exact Or.inl ⟨rfl, rfl⟩
        | some jd =>
            cases hk : get_api_key ak env.OPENAI_API_KEY env.LLM_API_KEY with
            | error e =>
                exact Or.inl
                  (by simp [generate_tailored_resume, parseGenerateTailoredResumeRequest, hk])
            | ok k =>
                cases hsp : get_style_path (st.getD "Classic") styles dir with
                | error e =>
                    exact Or.inl (by
                      simp [generate_tailored_resume, parseGenerateTailoredResumeRequest, hk, hsp])
                | ok p =>
                    refine Or.inr ⟨k, rfl, ?_⟩
                    simp [generate_tailored_resume, parseGenerateTailoredResumeRequest, hk, hsp,
                      gen_html_config]
  · cases ry with
    | none => exact Or.inl ⟨rfl, rfl⟩
    | some ry =>
        cases jd with
        | none => exact Or.inl ⟨rfl, rfl⟩
        | some jd =>
            cases hk : get_api_key ak env.OPENAI_API_KEY env.LLM_API_KEY with
            | error e =>
                exact Or.inl (by
                  simp [generate_cover_letter, parseGenerateCoverLetterRequest,
                    parseGenerateTailoredResumeRequest, hk])
            | ok k =>
                cases hsp : get_style_path (st.getD "Classic") styles dir with
                | error e =>
                    exact Or.inl (by
                      simp [generate_cover_letter, parseGenerateCoverLetterRequest,
                        parseGenerateTailoredResumeRequest, hk, hsp])
                | ok p =>
                    refine Or.inr ⟨k, rfl, ?_⟩
                    simp [generate_cover_letter, parseGenerateCoverLetterRequest,
                      parseGenerateTailoredResumeRequest, hk, hsp, gen_html_config]
